import Mathlib

/-!
Shallow embedding of the Physics-Builder-3d sources:
  - src/components/Building.tsx : procedural structure generator
  - src/App.tsx                 : quake trigger / rebuild state machine
  - src/components/Scene.tsx    : kinematic floor motion
  - src/components/Interaction  : drag-session pivot logic

Real numbers of the TypeScript source are modelled as rationals; values
produced by external library calls (Math.sin, Math.cos, Math.random, the
camera unprojection) enter as explicit parameters.
-/

namespace PhysicsBuilder

/-- Building type enumeration from src/components/Building.tsx. -/
inductive BuildingType
  | simple
  | apartment
  | bank
deriving DecidableEq, Repr

/-- Three-component vector over the rationals. -/
structure Vec3 where
  x : ℚ
  y : ℚ
  z : ℚ
deriving DecidableEq, Repr

instance : Add Vec3 := ⟨fun a b => ⟨a.x + b.x, a.y + b.y, a.z + b.z⟩⟩

instance : Sub Vec3 := ⟨fun a b => ⟨a.x - b.x, a.y - b.y, a.z - b.z⟩⟩

/-- Materials assigned to physics bodies in Building.tsx (visual-only
materials such as ropeMaterial are not body materials). -/
inductive Material
  | pillarMat
  | slabMat
  | pillarSimpleMat
  | slabSimpleMat
  | bankWallMat
  | debrisMat
  | glassMat
  | basementMat
deriving DecidableEq, Repr

/-- Which generator loop emitted a body (pillar loop, wall loop, window
branch, slab loop, debris loop). -/
inductive BodyKind
  | pillar
  | wall
  | window
  | slab
  | debris
deriving DecidableEq, Repr

/-- One rigid-body placement handed to the physics engine via a PhysicsBox
element: position, collision extents (args), mass, damping and material. -/
structure BodyPlacement where
  kind : BodyKind
  position : Vec3
  args : Vec3
  mass : ℚ
  linearDamping : ℚ
  angularDamping : ℚ
  material : Material
deriving DecidableEq, Repr

/-! Dimension constants from the head of Building.tsx. -/

def PILLAR_HEIGHT : ℚ := 7/2

def SLAB_HEIGHT : ℚ := 2/5

def PILLAR_WIDTH_SIMPLE : ℚ := 1/2

def SLAB_WIDTH_SIMPLE : ℚ := 5

def OFFSET_SIMPLE : ℚ := 11/5

def PILLAR_WIDTH_APARTMENT : ℚ := 7/10

def GRID_SIZE : ℚ := 4

def BANK_GRID : ℚ := 4

def PILLAR_WIDTH_BANK : ℚ := 3/5

def PILLAR_PHYSICS_WIDTH_BANK : ℚ := 4/5

def BEAM_HEIGHT_KINDA_BIG : ℚ := 2/5

def GAP : ℚ := 1/20

def WALL_THICKNESS : ℚ := 2/5

def WINDOW_THICKNESS : ℚ := 3/20

def WALL_LENGTH_APT : ℚ := GRID_SIZE - PILLAR_WIDTH_APARTMENT - GAP

def WALL_LENGTH_BANK_PHYSICS : ℚ := BANK_GRID - PILLAR_PHYSICS_WIDTH_BANK - GAP

/-- StorySimple: four corner pillars and one slab; the level index is
accepted but unused (every simple story is identical in shape). -/
def storySimple (level : ℕ) (yPos : ℚ) : List BodyPlacement :=
  let _ := level
  let pillarY := yPos + PILLAR_HEIGHT / 2
  let slabY := yPos + PILLAR_HEIGHT + SLAB_HEIGHT / 2
  let o := OFFSET_SIMPLE
  let pillarMass : ℚ := 1/2
  let slabMass : ℚ := 1
  let pillarArgs : Vec3 := ⟨PILLAR_WIDTH_SIMPLE, PILLAR_HEIGHT, PILLAR_WIDTH_SIMPLE⟩
  let mkPillar : ℚ → ℚ → BodyPlacement := fun px pz =>
    { kind := .pillar, position := ⟨px, pillarY, pz⟩, args := pillarArgs,
      mass := pillarMass, linearDamping := 1/100, angularDamping := 1/100,
      material := .pillarSimpleMat }
  [ mkPillar o o, mkPillar (-o) o, mkPillar o (-o), mkPillar (-o) (-o),
    { kind := .slab, position := ⟨0, slabY, 0⟩,
      args := ⟨SLAB_WIDTH_SIMPLE, SLAB_HEIGHT, SLAB_WIDTH_SIMPLE⟩,
      mass := slabMass, linearDamping := 1/100, angularDamping := 1/100,
      material := .slabSimpleMat } ]

/-- StoryApartment pillar loop: x in 0..roomsX, z in 0..roomsZ inclusive. -/
def aptPillars (level : ℕ) (yPos : ℚ) (roomsX roomsZ : ℕ) : List BodyPlacement :=
  let isBasement := level = 0
  let pillarY := yPos + PILLAR_HEIGHT / 2
  let startX := -(roomsX * GRID_SIZE) / 2
  let startZ := -(roomsZ * GRID_SIZE) / 2
  let pillarMass : ℚ := if isBasement then 50 else 20
  let damping : ℚ := 1/20
  let mat := if isBasement then Material.basementMat else Material.pillarMat
  (List.range (roomsX + 1)).flatMap fun (x : ℕ) =>
    (List.range (roomsZ + 1)).map fun (z : ℕ) =>
      { kind := .pillar,
        position := ⟨startX + x * GRID_SIZE, pillarY, startZ + z * GRID_SIZE⟩,
        args := ⟨PILLAR_WIDTH_APARTMENT, PILLAR_HEIGHT, PILLAR_WIDTH_APARTMENT⟩,
        mass := pillarMass, linearDamping := damping, angularDamping := damping,
        material := mat }

/-- StoryApartment X-axis wall loop: x in 0..roomsX-1, z in 0..roomsZ. -/
def aptWallsX (level : ℕ) (yPos : ℚ) (roomsX roomsZ : ℕ) : List BodyPlacement :=
  let isBasement := level = 0
  let pillarY := yPos + PILLAR_HEIGHT / 2
  let startX := -(roomsX * GRID_SIZE) / 2
  let startZ := -(roomsZ * GRID_SIZE) / 2
  let wallMass : ℚ := if isBasement then 50 else 20
  let damping : ℚ := 1/20
  let mat := if isBasement then Material.basementMat else Material.bankWallMat
  (List.range roomsX).flatMap fun (x : ℕ) =>
    (List.range (roomsZ + 1)).map fun (z : ℕ) =>
      { kind := .wall,
        position := ⟨startX + x * GRID_SIZE + GRID_SIZE / 2, pillarY,
                     startZ + z * GRID_SIZE⟩,
        args := ⟨WALL_LENGTH_APT, PILLAR_HEIGHT, WALL_THICKNESS⟩,
        mass := wallMass, linearDamping := damping, angularDamping := damping,
        material := mat }

/-- StoryApartment Z-axis wall loop: x in 0..roomsX, z in 0..roomsZ-1. -/
def aptWallsZ (level : ℕ) (yPos : ℚ) (roomsX roomsZ : ℕ) : List BodyPlacement :=
  let isBasement := level = 0
  let pillarY := yPos + PILLAR_HEIGHT / 2
  let startX := -(roomsX * GRID_SIZE) / 2
  let startZ := -(roomsZ * GRID_SIZE) / 2
  let wallMass : ℚ := if isBasement then 50 else 20
  let damping : ℚ := 1/20
  let mat := if isBasement then Material.basementMat else Material.bankWallMat
  (List.range (roomsX + 1)).flatMap fun (x : ℕ) =>
    (List.range roomsZ).map fun (z : ℕ) =>
      { kind := .wall,
        position := ⟨startX + x * GRID_SIZE, pillarY,
                     startZ + z * GRID_SIZE + GRID_SIZE / 2⟩,
        args := ⟨WALL_THICKNESS, PILLAR_HEIGHT, WALL_LENGTH_APT⟩,
        mass := wallMass, linearDamping := damping, angularDamping := damping,
        material := mat }

/-- StoryApartment slab loop: x in 0..roomsX-1, z in 0..roomsZ-1. -/
def aptSlabs (level : ℕ) (yPos : ℚ) (roomsX roomsZ : ℕ) : List BodyPlacement :=
  let isBasement := level = 0
  let startX := -(roomsX * GRID_SIZE) / 2
  let startZ := -(roomsZ * GRID_SIZE) / 2
  let slabMass : ℚ := if isBasement then 50 else 20
  let damping : ℚ := 1/20
  let slabY := yPos + PILLAR_HEIGHT + BEAM_HEIGHT_KINDA_BIG / 2
  (List.range roomsX).flatMap fun (x : ℕ) =>
    (List.range roomsZ).map fun (z : ℕ) =>
      { kind := .slab,
        position := ⟨startX + x * GRID_SIZE + GRID_SIZE / 2, slabY,
                     startZ + z * GRID_SIZE + GRID_SIZE / 2⟩,
        args := ⟨GRID_SIZE - GAP, BEAM_HEIGHT_KINDA_BIG, GRID_SIZE - GAP⟩,
        mass := slabMass, linearDamping := damping, angularDamping := damping,
        material := if isBasement then Material.basementMat else Material.slabMat }

/-- StoryApartment debris loop: emitted only when the story is not the
basement (level 0), one cube per room. -/
def aptDebris (level : ℕ) (yPos : ℚ) (roomsX roomsZ : ℕ) : List BodyPlacement :=
  if level = 0 then []
  else
    let startX := -(roomsX * GRID_SIZE) / 2
    let startZ := -(roomsZ * GRID_SIZE) / 2
    (List.range roomsX).flatMap fun (x : ℕ) =>
      (List.range roomsZ).map fun (z : ℕ) =>
        { kind := .debris,
          position := ⟨startX + x * GRID_SIZE + GRID_SIZE / 2, yPos + 1/2,
                       startZ + z * GRID_SIZE + GRID_SIZE / 2⟩,
          args := ⟨1/2, 1/2, 1/2⟩,
          mass := 5, linearDamping := 1/10, angularDamping := 1/10,
          material := .debrisMat }

/-- StoryApartment: pillars, walls (both axes), slabs, then debris, in the
order the source pushes them into its elements array. -/
def storyApartment (level : ℕ) (yPos : ℚ) (roomsX roomsZ : ℕ) : List BodyPlacement :=
  aptPillars level yPos roomsX roomsZ ++ aptWallsX level yPos roomsX roomsZ ++
    aptWallsZ level yPos roomsX roomsZ ++ aptSlabs level yPos roomsX roomsZ ++
    aptDebris level yPos roomsX roomsZ

/-- StoryBank pillar loop: 5 x 5 grid with widened physics extents. -/
def bankPillars (level : ℕ) (yPos : ℚ) : List BodyPlacement :=
  let isBasement := level = 0
  let pillarY := yPos + PILLAR_HEIGHT / 2
  let startX := -(4 * BANK_GRID) / 2
  let startZ := -(4 * BANK_GRID) / 2
  let mass : ℚ := if isBasement then 50 else 20
  let damping : ℚ := 1/20
  (List.range 5).flatMap fun (x : ℕ) =>
    (List.range 5).map fun (z : ℕ) =>
      { kind := .pillar,
        position := ⟨startX + x * BANK_GRID, pillarY, startZ + z * BANK_GRID⟩,
        args := ⟨PILLAR_PHYSICS_WIDTH_BANK, PILLAR_HEIGHT, PILLAR_PHYSICS_WIDTH_BANK⟩,
        mass := mass, linearDamping := damping, angularDamping := damping,
        material := if isBasement then Material.basementMat else Material.pillarMat }

/-- StoryBank X-axis loop: exterior faces (z = 0 or z = ROOMS_Z) become
glass windows of mass 5, interior faces solid walls of mass 20; neither
consults the basement flag. -/
def bankWallsX (level : ℕ) (yPos : ℚ) : List BodyPlacement :=
  let _ := level
  let pillarY := yPos + PILLAR_HEIGHT / 2
  let startX := -(4 * BANK_GRID) / 2
  let startZ := -(4 * BANK_GRID) / 2
  let damping : ℚ := 1/20
  (List.range 4).flatMap fun (x : ℕ) =>
    (List.range 5).map fun (z : ℕ) =>
      let wx := startX + x * BANK_GRID + BANK_GRID / 2
      let wz := startZ + z * BANK_GRID
      if z = 0 ∨ z = 4 then
        { kind := .window, position := ⟨wx, pillarY, wz⟩,
          args := ⟨WALL_LENGTH_BANK_PHYSICS, PILLAR_HEIGHT, WINDOW_THICKNESS⟩,
          mass := 5, linearDamping := 1/10, angularDamping := 1/10,
          material := .glassMat }
      else
        { kind := .wall, position := ⟨wx, pillarY, wz⟩,
          args := ⟨WALL_LENGTH_BANK_PHYSICS, PILLAR_HEIGHT, WALL_THICKNESS⟩,
          mass := 20, linearDamping := damping, angularDamping := damping,
          material := .bankWallMat }

/-- StoryBank Z-axis loop, mirror of the X-axis loop. -/
def bankWallsZ (level : ℕ) (yPos : ℚ) : List BodyPlacement :=
  let _ := level
  let pillarY := yPos + PILLAR_HEIGHT / 2
  let startX := -(4 * BANK_GRID) / 2
  let startZ := -(4 * BANK_GRID) / 2
  let damping : ℚ := 1/20
  (List.range 5).flatMap fun (x : ℕ) =>
    (List.range 4).map fun (z : ℕ) =>
      let wx := startX + x * BANK_GRID
      let wz := startZ + z * BANK_GRID + BANK_GRID / 2
      if x = 0 ∨ x = 4 then
        { kind := .window, position := ⟨wx, pillarY, wz⟩,
          args := ⟨WINDOW_THICKNESS, PILLAR_HEIGHT, WALL_LENGTH_BANK_PHYSICS⟩,
          mass := 5, linearDamping := 1/10, angularDamping := 1/10,
          material := .glassMat }
      else
        { kind := .wall, position := ⟨wx, pillarY, wz⟩,
          args := ⟨WALL_THICKNESS, PILLAR_HEIGHT, WALL_LENGTH_BANK_PHYSICS⟩,
          mass := 20, linearDamping := damping, angularDamping := damping,
          material := .bankWallMat }

/-- StoryBank slab loop: 4 x 4 slabs; the basement flag widens only mass
and material. -/
def bankSlabs (level : ℕ) (yPos : ℚ) : List BodyPlacement :=
  let isBasement := level = 0
  let slabY := yPos + PILLAR_HEIGHT + BEAM_HEIGHT_KINDA_BIG / 2
  let startX := -(4 * BANK_GRID) / 2
  let startZ := -(4 * BANK_GRID) / 2
  let mass : ℚ := if isBasement then 50 else 20
  let damping : ℚ := 1/20
  (List.range 4).flatMap fun (x : ℕ) =>
    (List.range 4).map fun (z : ℕ) =>
      { kind := .slab,
        position := ⟨startX + x * BANK_GRID + BANK_GRID / 2, slabY,
                     startZ + z * BANK_GRID + BANK_GRID / 2⟩,
        args := ⟨BANK_GRID - GAP, BEAM_HEIGHT_KINDA_BIG, BANK_GRID - GAP⟩,
        mass := mass, linearDamping := damping, angularDamping := damping,
        material := if isBasement then Material.basementMat else Material.slabMat }

/-- StoryBank: pillars, X walls/windows, Z walls/windows, slabs; the bank
story has no debris loop. -/
def storyBank (level : ℕ) (yPos : ℚ) : List BodyPlacement :=
  bankPillars level yPos ++ bankWallsX level yPos ++ bankWallsZ level yPos ++
    bankSlabs level yPos

/-- The getFloorY helper of the Building component: cumulative story height
below level index i. -/
def getFloorY (type : BuildingType) : ℕ → ℚ
  | 0 => 0
  | i + 1 =>
    getFloorY type i +
      (if type = .bank ∨ type = .apartment then PILLAR_HEIGHT + BEAM_HEIGHT_KINDA_BIG
       else PILLAR_HEIGHT + SLAB_HEIGHT)

/-- Number of story levels the Building component renders: stories + 1
extra basement for bank and apartment, stories for simple. -/
def totalLevels (type : BuildingType) (stories : ℕ) : ℕ :=
  if type = .bank ∨ type = .apartment then stories + 1 else stories

/-- The apartment grid dimensions helper always returns a 3 x 3 room grid. -/
def getGridDimensions : ℕ × ℕ := (3, 3)

/-- The Building component: one story per level index, dispatched on type.
This is the structure generator `generate(type, storyCount)`. -/
def building (type : BuildingType) (stories : ℕ) : List BodyPlacement :=
  (List.range (totalLevels type stories)).flatMap fun i =>
    match type with
    | .bank => storyBank i (getFloorY type i)
    | .simple => storySimple i (getFloorY type i)
    | .apartment => storyApartment i (getFloorY type i) getGridDimensions.1 getGridDimensions.2

/-! App.tsx quake state machine. Pending setTimeout callbacks are modelled
as optional pending-timer records: the end-of-quake timer stores its delay,
the P-wave phase timer stores its delay together with the S-wave power its
callback captured. -/

/-- React state of the App component that the quake logic touches. -/
structure AppState where
  isQuaking : Bool
  quakePower : ℚ
  isPaused : Bool
  resetKey : ℕ
  timeout : Option ℚ
  pWaveTimeout : Option (ℚ × ℚ)
deriving DecidableEq, Repr

/-- The handleRebuild handler: bump resetKey, clear the quake flag and the
pause flag, cancel both pending timers. -/
def handleRebuild (s : AppState) : AppState :=
  { s with resetKey := s.resetKey + 1, isQuaking := false, isPaused := false,
           timeout := none, pWaveTimeout := none }

/-- The handleEarthquake handler. The Math.random() sample of the trigger
is the parameter rand (a value in [0, 1)). The handler clears any pending
timers, raises the quake flag, and either schedules the two-phase bank
profile (type bank and power at least 1.4) or runs a single phase. -/
def handleEarthquake (configType : BuildingType) (rand : ℚ) (s : AppState)
    (duration : ℚ) (power : ℚ) : AppState :=
  let s0 : AppState := { s with timeout := none, pWaveTimeout := none, isQuaking := true }
  if configType = .bank ∧ (7/5 : ℚ) ≤ power then
    let pWaveRatio : ℚ := 3/10 + rand * (1/10)
    let pWaveDuration := duration * pWaveRatio
    { s0 with quakePower := 1/2,
              pWaveTimeout := some (pWaveDuration, power),
              timeout := some duration }
  else
    { s0 with quakePower := power, timeout := some duration }

/-- Firing the pending P-wave timer: its callback sets the quake power to
the S-wave power it captured. -/
def firePWaveTimeout (s : AppState) : AppState :=
  match s.pWaveTimeout with
  | some (_, sPower) => { s with quakePower := sPower, pWaveTimeout := none }
  | none => s

/-- Firing the pending end-of-quake timer: its callback clears the quake
flag. -/
def fireEndTimeout (s : AppState) : AppState :=
  match s.timeout with
  | some _ => { s with isQuaking := false, timeout := none }
  | none => s

/-- A click on one of the quake buttons: the buttons carry
disabled set to isQuaking, so a click while a quake is active dispatches no
handler call. -/
def quakeButtonClick (configType : BuildingType) (rand : ℚ) (s : AppState)
    (duration : ℚ) (power : ℚ) : AppState :=
  if s.isQuaking then s else handleEarthquake configType rand s duration power

/-! Scene.tsx floor motion. Math.sin and Math.cos enter as function
parameters, the three Math.random() samples of a frame as rx, rz, ry. -/

/-- One useFrame step of the Floor component: given the accumulated scaled
time t and the frame delta, returns the new accumulated time and the
position the floor body is set to. -/
def floorFrame (sin cos : ℚ → ℚ) (isQuaking : Bool) (quakePower : ℚ)
    (t delta : ℚ) (rx rz ry : ℚ) : ℚ × Vec3 :=
  if isQuaking then
    let speed : ℚ := 25
    let tNew := t + delta * speed
    let intensityX := 1 * quakePower
    let intensityY := (2/5) * quakePower
    let noiseFactor := (3/5) * quakePower
    let x := sin tNew * intensityX + (rx - 1/2) * noiseFactor
    let z := cos (tNew * (9/10)) * intensityX + (rz - 1/2) * noiseFactor
    let y := -(11/10) + sin (tNew * (3/2)) * intensityY + (ry - 1/2) * ((3/10) * quakePower)
    (tNew, ⟨x, y, z⟩)
  else
    (t, ⟨0, -(11/10), 0⟩)

/-! Interaction.tsx drag-session model. Body orientation is a quaternion
over the rationals (three.js object quaternions are unit quaternions, so
worldToLocal applies the conjugate rotation after untranslating). -/

/-- Quaternion with rational components. -/
structure Quat where
  w : ℚ
  x : ℚ
  y : ℚ
  z : ℚ
deriving DecidableEq, Repr

/-- Quaternion conjugate, the inverse rotation for a unit quaternion. -/
def Quat.conj (q : Quat) : Quat := ⟨q.w, -q.x, -q.y, -q.z⟩

/-- Rotation of a vector by a quaternion, the three.js applyQuaternion
formula. -/
def applyQuaternion (v : Vec3) (q : Quat) : Vec3 :=
  let ix := q.w * v.x + q.y * v.z - q.z * v.y
  let iy := q.w * v.y + q.z * v.x - q.x * v.z
  let iz := q.w * v.z + q.x * v.y - q.y * v.x
  let iw := -q.x * v.x - q.y * v.y - q.z * v.z
  ⟨ix * q.w + iw * (-q.x) + iy * (-q.z) - iz * (-q.y),
   iy * q.w + iw * (-q.y) + iz * (-q.x) - ix * (-q.z),
   iz * q.w + iw * (-q.z) + ix * (-q.y) - iy * (-q.x)⟩

/-- Rigid pose of a grabbed body: world position and orientation. -/
structure Pose where
  position : Vec3
  quaternion : Quat
deriving DecidableEq, Repr

/-- The three.js worldToLocal of a body at the given pose: untranslate,
then rotate by the inverse orientation. -/
def worldToLocal (p : Pose) (w : Vec3) : Vec3 :=
  applyQuaternion (w - p.position) p.quaternion.conj

/-- The world position of the local pivot on a body at the given pose, as
recomputed by the DragLine every frame. -/
def localPivotToWorld (p : Pose) (pivot : Vec3) : Vec3 :=
  applyQuaternion pivot p.quaternion + p.position

/-- A live drag session: the local pivot stored by startDrag, the
constraint's pivotB fixed when the point-to-point constraint is created,
the body's current pose and the kinematic cursor position. -/
structure DragSession where
  pivot : Vec3
  pivotB : Vec3
  bodyPose : Pose
  cursorPos : Vec3
deriving DecidableEq, Repr

/-- Per-frame inputs of a drag session: the pose the physics engine moved
the body to, and the unprojected pointer target for the cursor body. -/
structure FrameInput where
  newPose : Pose
  pointerTarget : Vec3
deriving DecidableEq, Repr

/-- The onPointerDown path: the world hit point is transformed into the
body's local frame, stored as the session pivot, and used as pivotB of the
point-to-point constraint. -/
def startDrag (bodyPose : Pose) (hitPoint : Vec3) : DragSession :=
  let localPoint := worldToLocal bodyPose hitPoint
  { pivot := localPoint, pivotB := localPoint, bodyPose := bodyPose,
    cursorPos := ⟨0, 0, 0⟩ }

/-- One rendered frame while grabbing: the cursor is moved to the pointer
target and the body pose advances; neither the pivot nor the constraint's
pivotB is touched. -/
def dragFrame (s : DragSession) (f : FrameInput) : DragSession :=
  { s with bodyPose := f.newPose, cursorPos := f.pointerTarget }

/-- A whole sequence of frames of one session. -/
def dragFrames (s : DragSession) (fs : List FrameInput) : DragSession :=
  fs.foldl dragFrame s

/-- The endpoint of the feedback line drawn on a frame: the session pivot
transformed to world space through the body's current pose. -/
def dragLineEndpoint (s : DragSession) : Vec3 :=
  localPivotToWorld s.bodyPose s.pivot

/-! Helper lemmas about the generator lists. -/

/-- Count of bodies of a given kind in a placement list. -/
def kindCount (l : List BodyPlacement) (k : BodyKind) : ℕ :=
  (l.filter fun b => decide (b.kind = k)).length

theorem length_grid {α β γ : Type} (l1 : List β) (l2 : List γ) (g : β → γ → α) :
    (l1.flatMap fun x => l2.map (g x)).length = l1.length * l2.length := by
  simp [List.length_flatMap, Function.comp_def, List.map_const']

theorem kindCount_append (l₁ l₂ : List BodyPlacement) (k : BodyKind) :
    kindCount (l₁ ++ l₂) k = kindCount l₁ k + kindCount l₂ k := by
  simp [kindCount, List.filter_append]

theorem kindCount_of_forall {k0 : BodyKind} {l : List BodyPlacement}
    (h : ∀ b ∈ l, b.kind = k0) (k : BodyKind) :
    kindCount l k = if k = k0 then l.length else 0 := by
  unfold kindCount
  by_cases hk : k = k0
  · subst hk
    rw [if_pos rfl, List.filter_eq_self.mpr]
    intro b hb
    simp [h b hb]
  · rw [if_neg hk, List.filter_eq_nil_iff.mpr, List.length_nil]
    intro b hb
    simp only [h b hb, decide_eq_true_eq]
    exact fun hh => hk hh.symm

theorem aptPillars_kind (l : ℕ) (y : ℚ) (rx rz : ℕ) :
    ∀ b ∈ aptPillars l y rx rz, b.kind = BodyKind.pillar := by
  intro b hb
  simp only [aptPillars, List.mem_flatMap, List.mem_map, List.mem_range] at hb
  obtain ⟨x, -, z, -, rfl⟩ := hb
  rfl

theorem aptWallsX_kind (l : ℕ) (y : ℚ) (rx rz : ℕ) :
    ∀ b ∈ aptWallsX l y rx rz, b.kind = BodyKind.wall := by
  intro b hb
  simp only [aptWallsX, List.mem_flatMap, List.mem_map, List.mem_range] at hb
  obtain ⟨x, -, z, -, rfl⟩ := hb
  rfl

theorem aptWallsZ_kind (l : ℕ) (y : ℚ) (rx rz : ℕ) :
    ∀ b ∈ aptWallsZ l y rx rz, b.kind = BodyKind.wall := by
  intro b hb
  simp only [aptWallsZ, List.mem_flatMap, List.mem_map, List.mem_range] at hb
  obtain ⟨x, -, z, -, rfl⟩ := hb
  rfl

theorem aptSlabs_kind (l : ℕ) (y : ℚ) (rx rz : ℕ) :
    ∀ b ∈ aptSlabs l y rx rz, b.kind = BodyKind.slab := by
  intro b hb
  simp only [aptSlabs, List.mem_flatMap, List.mem_map, List.mem_range] at hb
  obtain ⟨x, -, z, -, rfl⟩ := hb
  rfl

theorem aptDebris_kind (l : ℕ) (y : ℚ) (rx rz : ℕ) :
    ∀ b ∈ aptDebris l y rx rz, b.kind = BodyKind.debris := by
  intro b hb
  unfold aptDebris at hb
  by_cases hl : l = 0
  · simp [hl] at hb
  · simp only [if_neg hl, List.mem_flatMap, List.mem_map, List.mem_range] at hb
    obtain ⟨x, -, z, -, rfl⟩ := hb
    rfl

theorem aptPillars_length (l : ℕ) (y : ℚ) (rx rz : ℕ) :
    (aptPillars l y rx rz).length = (rx + 1) * (rz + 1) := by
  simp only [aptPillars]
  rw [length_grid]
  simp

theorem aptWallsX_length (l : ℕ) (y : ℚ) (rx rz : ℕ) :
    (aptWallsX l y rx rz).length = rx * (rz + 1) := by
  simp only [aptWallsX]
  rw [length_grid]
  simp

theorem aptWallsZ_length (l : ℕ) (y : ℚ) (rx rz : ℕ) :
    (aptWallsZ l y rx rz).length = (rx + 1) * rz := by
  simp only [aptWallsZ]
  rw [length_grid]
  simp

theorem aptSlabs_length (l : ℕ) (y : ℚ) (rx rz : ℕ) :
    (aptSlabs l y rx rz).length = rx * rz := by
  simp only [aptSlabs]
  rw [length_grid]
  simp

theorem aptDebris_length (l : ℕ) (y : ℚ) (rx rz : ℕ) :
    (aptDebris l y rx rz).length = if l = 0 then 0 else rx * rz := by
  unfold aptDebris
  by_cases hl : l = 0
  · simp [hl]
  · rw [if_neg hl, if_neg hl]
    rw [length_grid]
    simp

theorem storyApartment_kindCounts (l : ℕ) (y : ℚ) (rx rz : ℕ) :
    kindCount (storyApartment l y rx rz) BodyKind.pillar = (rx + 1) * (rz + 1) ∧
    kindCount (storyApartment l y rx rz) BodyKind.wall = rx * (rz + 1) + (rx + 1) * rz ∧
    kindCount (storyApartment l y rx rz) BodyKind.slab = rx * rz ∧
    kindCount (storyApartment l y rx rz) BodyKind.debris = if l = 0 then 0 else rx * rz := by
  unfold storyApartment
  simp only [kindCount_append]
  simp only [kindCount_of_forall (aptPillars_kind l y rx rz),
      kindCount_of_forall (aptWallsX_kind l y rx rz),
      kindCount_of_forall (aptWallsZ_kind l y rx rz),
      kindCount_of_forall (aptSlabs_kind l y rx rz),
      kindCount_of_forall (aptDebris_kind l y rx rz)]
  simp [aptPillars_length, aptWallsX_length, aptWallsZ_length, aptSlabs_length,
        aptDebris_length]

theorem storyApartment_length (l : ℕ) (y : ℚ) (rx rz : ℕ) :
    (storyApartment l y rx rz).length =
      (rx + 1) * (rz + 1) + (rx * (rz + 1) + ((rx + 1) * rz + (rx * rz +
        (if l = 0 then 0 else rx * rz)))) := by
  simp [storyApartment, aptPillars_length, aptWallsX_length, aptWallsZ_length,
        aptSlabs_length, aptDebris_length]

theorem storySimple_kindCounts (l : ℕ) (y : ℚ) :
    kindCount (storySimple l y) BodyKind.pillar = 4 ∧
    kindCount (storySimple l y) BodyKind.slab = 1 ∧
    kindCount (storySimple l y) BodyKind.wall = 0 ∧
    kindCount (storySimple l y) BodyKind.debris = 0 ∧
    (storySimple l y).length = 5 := by
  simp [kindCount, storySimple]

theorem bankPillars_kind (l : ℕ) (y : ℚ) :
    ∀ b ∈ bankPillars l y, b.kind = BodyKind.pillar := by
  intro b hb
  simp only [bankPillars, List.mem_flatMap, List.mem_map, List.mem_range] at hb
  obtain ⟨x, -, z, -, rfl⟩ := hb
  rfl

theorem bankSlabs_kind (l : ℕ) (y : ℚ) :
    ∀ b ∈ bankSlabs l y, b.kind = BodyKind.slab := by
  intro b hb
  simp only [bankSlabs, List.mem_flatMap, List.mem_map, List.mem_range] at hb
  obtain ⟨x, -, z, -, rfl⟩ := hb
  rfl

theorem bankPillars_length (l : ℕ) (y : ℚ) : (bankPillars l y).length = 25 := by
  simp only [bankPillars]
  rw [length_grid]
  simp

theorem bankSlabs_length (l : ℕ) (y : ℚ) : (bankSlabs l y).length = 16 := by
  simp only [bankSlabs]
  rw [length_grid]
  simp

theorem bankWallsX_kindCounts (l : ℕ) (y : ℚ) :
    kindCount (bankWallsX l y) BodyKind.window = 8 ∧
    kindCount (bankWallsX l y) BodyKind.wall = 12 ∧
    kindCount (bankWallsX l y) BodyKind.pillar = 0 ∧
    kindCount (bankWallsX l y) BodyKind.slab = 0 ∧
    kindCount (bankWallsX l y) BodyKind.debris = 0 ∧
    (bankWallsX l y).length = 20 := by
  simp [kindCount, bankWallsX, List.range_succ]

theorem bankWallsZ_kindCounts (l : ℕ) (y : ℚ) :
    kindCount (bankWallsZ l y) BodyKind.window = 8 ∧
    kindCount (bankWallsZ l y) BodyKind.wall = 12 ∧
    kindCount (bankWallsZ l y) BodyKind.pillar = 0 ∧
    kindCount (bankWallsZ l y) BodyKind.slab = 0 ∧
    kindCount (bankWallsZ l y) BodyKind.debris = 0 ∧
    (bankWallsZ l y).length = 20 := by
  simp [kindCount, bankWallsZ, List.range_succ]

theorem storyBank_kindCounts (l : ℕ) (y : ℚ) :
    kindCount (storyBank l y) BodyKind.pillar = 25 ∧
    kindCount (storyBank l y) BodyKind.wall = 24 ∧
    kindCount (storyBank l y) BodyKind.window = 16 ∧
    kindCount (storyBank l y) BodyKind.slab = 16 ∧
    kindCount (storyBank l y) BodyKind.debris = 0 ∧
    (storyBank l y).length = 81 := by
  unfold storyBank
  have hx := bankWallsX_kindCounts l y
  have hz := bankWallsZ_kindCounts l y
  simp only [kindCount_append, List.length_append,
    kindCount_of_forall (bankPillars_kind l y),
    kindCount_of_forall (bankSlabs_kind l y),
    bankPillars_length, bankSlabs_length,
    hx.1, hx.2.1, hx.2.2.1, hx.2.2.2.1, hx.2.2.2.2.1, hx.2.2.2.2.2,
    hz.1, hz.2.1, hz.2.2.1, hz.2.2.2.1, hz.2.2.2.2.1, hz.2.2.2.2.2]
  simp

theorem length_flatMap_const {α : Type} (f : ℕ → List α) (c n : ℕ)
    (h : ∀ i, (f i).length = c) :
    ((List.range n).flatMap f).length = n * c := by
  simp [List.length_flatMap, Function.comp_def, h, List.map_const']

theorem sum_if_zero (n a b : ℕ) :
    ((List.range (n + 1)).map fun i => if i = 0 then a else b).sum = a + n * b := by
  induction n with
  | zero => simp [show List.range 1 = [0] from rfl]
  | succ n ih =>
    rw [List.range_succ, List.map_append, List.sum_append, ih]
    simp [Nat.succ_ne_zero]
    ring

theorem building_simple_length (n : ℕ) : (building .simple n).length = 5 * n := by
  unfold building
  rw [length_flatMap_const _ 5]
  · simp [totalLevels]
    ring
  · intro i
    exact (storySimple_kindCounts i (getFloorY .simple i)).2.2.2.2

theorem building_bank_length (n : ℕ) : (building .bank n).length = 81 * (n + 1) := by
  unfold building
  rw [length_flatMap_const _ 81]
  · simp [totalLevels]
    ring
  · intro i
    exact (storyBank_kindCounts i (getFloorY .bank i)).2.2.2.2.2

theorem building_apartment_length (n : ℕ) :
    (building .apartment n).length = 58 * n + 49 := by
  have hst : ∀ i : ℕ,
      (storyApartment i (getFloorY .apartment i) 3 3).length =
        if i = 0 then 49 else 58 := by
    intro i
    rw [storyApartment_length]
    by_cases h : i = 0 <;> simp [h]
  unfold building
  have htot : totalLevels .apartment n = n + 1 := by simp [totalLevels]
  rw [htot, List.length_flatMap]
  simp only [Function.comp_def, getGridDimensions, hst]
  rw [sum_if_zero]
  ring

theorem storyApartment_basement_heavy (y : ℚ) (rx rz : ℕ) :
    ∀ b ∈ storyApartment 0 y rx rz,
      b.mass = 50 ∧ b.material = Material.basementMat := by
  intro b hb
  simp only [storyApartment, List.mem_append] at hb
  rcases hb with (((h | h) | h) | h) | h
  · simp only [aptPillars, List.mem_flatMap, List.mem_map, List.mem_range] at h
    obtain ⟨x, -, z, -, rfl⟩ := h
    simp
  · simp only [aptWallsX, List.mem_flatMap, List.mem_map, List.mem_range] at h
    obtain ⟨x, -, z, -, rfl⟩ := h
    simp
  · simp only [aptWallsZ, List.mem_flatMap, List.mem_map, List.mem_range] at h
    obtain ⟨x, -, z, -, rfl⟩ := h
    simp
  · simp only [aptSlabs, List.mem_flatMap, List.mem_map, List.mem_range] at h
    obtain ⟨x, -, z, -, rfl⟩ := h
    simp
  · simp [aptDebris] at h

theorem storyBank_basement_pillar_slab_heavy (y : ℚ) :
    ∀ b ∈ storyBank 0 y, b.kind = BodyKind.pillar ∨ b.kind = BodyKind.slab →
      b.mass = 50 ∧ b.material = Material.basementMat := by
  intro b hb
  simp only [storyBank, List.mem_append] at hb
  rcases hb with ((h | h) | h) | h
  · simp only [bankPillars, List.mem_flatMap, List.mem_map, List.mem_range] at h
    obtain ⟨x, -, z, -, rfl⟩ := h
    simp
  · simp only [bankWallsX, List.mem_flatMap, List.mem_map, List.mem_range] at h
    obtain ⟨x, -, z, hz, rfl⟩ := h
    by_cases hc : z = 0 ∨ z = 4 <;> simp [hc]
  · simp only [bankWallsZ, List.mem_flatMap, List.mem_map, List.mem_range] at h
    obtain ⟨x, hx, z, -, rfl⟩ := h
    by_cases hc : x = 0 ∨ x = 4 <;> simp [hc]
  · simp only [bankSlabs, List.mem_flatMap, List.mem_map, List.mem_range] at h
    obtain ⟨x, -, z, -, rfl⟩ := h
    simp

theorem storyBank_wall_props (l : ℕ) (y : ℚ) :
    ∀ b ∈ storyBank l y, b.kind = BodyKind.wall →
      b.mass = 20 ∧ b.material = Material.bankWallMat := by
  intro b hb
  simp only [storyBank, List.mem_append] at hb
  rcases hb with ((h | h) | h) | h
  · simp only [bankPillars, List.mem_flatMap, List.mem_map, List.mem_range] at h
    obtain ⟨x, -, z, -, rfl⟩ := h
    simp
  · simp only [bankWallsX, List.mem_flatMap, List.mem_map, List.mem_range] at h
    obtain ⟨x, -, z, -, rfl⟩ := h
    by_cases hc : z = 0 ∨ z = 4 <;> simp [hc]
  · simp only [bankWallsZ, List.mem_flatMap, List.mem_map, List.mem_range] at h
    obtain ⟨x, -, z, -, rfl⟩ := h
    by_cases hc : x = 0 ∨ x = 4 <;> simp [hc]
  · simp only [bankSlabs, List.mem_flatMap, List.mem_map, List.mem_range] at h
    obtain ⟨x, -, z, -, rfl⟩ := h
    simp

theorem storyBank_window_props (l : ℕ) (y : ℚ) :
    ∀ b ∈ storyBank l y, b.kind = BodyKind.window →
      b.mass = 5 ∧ b.material = Material.glassMat := by
  intro b hb
  simp only [storyBank, List.mem_append] at hb
  rcases hb with ((h | h) | h) | h
  · simp only [bankPillars, List.mem_flatMap, List.mem_map, List.mem_range] at h
    obtain ⟨x, -, z, -, rfl⟩ := h
    simp
  · simp only [bankWallsX, List.mem_flatMap, List.mem_map, List.mem_range] at h
    obtain ⟨x, -, z, -, rfl⟩ := h
    by_cases hc : z = 0 ∨ z = 4 <;> simp [hc]
  · simp only [bankWallsZ, List.mem_flatMap, List.mem_map, List.mem_range] at h
    obtain ⟨x, -, z, -, rfl⟩ := h
    by_cases hc : x = 0 ∨ x = 4 <;> simp [hc]
  · simp only [bankSlabs, List.mem_flatMap, List.mem_map, List.mem_range] at h
    obtain ⟨x, -, z, -, rfl⟩ := h
    simp

/-! Claim theorems. -/

/-- Claim C1, counterexample: invoking the earthquake handler while a quake
is already active is not a no-op. With an active quake whose end timer is
pending at 5000 ms, a further trigger call replaces the end timer by a
3000 ms one, so the state and timers change. -/
theorem c1_trigger_while_active_not_noop :
    handleEarthquake .simple 0 ⟨true, 1, false, 0, some 5000, none⟩ 3000 1 ≠
      (⟨true, 1, false, 0, some 5000, none⟩ : AppState) ∧
    (handleEarthquake .simple 0 ⟨true, 1, false, 0, some 5000, none⟩ 3000 1).timeout ≠
      some 5000 := by
  decide

/-- Claim C1 (amended): the no-op guarantee for triggering during an active
quake holds at the UI boundary, not in the handler: the quake buttons are
rendered disabled while isQuaking, so a click while a quake is active
dispatches no handler call and leaves the state, the phase-transition timer
and the end-of-quake timer unchanged; the handler itself, called directly,
would instead cancel and restart. -/
theorem c1_button_click_noop_while_active (configType : BuildingType)
    (rand : ℚ) (s : AppState) (duration power : ℚ) (h : s.isQuaking = true) :
    quakeButtonClick configType rand s duration power = s := by
  simp [quakeButtonClick, h]

/-- Witness for c1_button_click_noop_while_active at a concrete active
state with a pending end timer. -/
theorem c1_button_click_noop_witness :
    quakeButtonClick .simple 0 ⟨true, 1, false, 0, some 5000, none⟩ 10000 1 =
      (⟨true, 1, false, 0, some 5000, none⟩ : AppState) :=
  c1_button_click_noop_while_active .simple 0 ⟨true, 1, false, 0, some 5000, none⟩ 10000 1 rfl

/-- Claim C2: on the bank type with power at least 1.4 the trigger splits
the duration at a per-trigger ratio 0.30 + rand/10 in [0.30, 0.40): the
P-wave phase runs at fixed power 0.5 for duration times that ratio, the
scheduled phase-transition timer then raises the power to the requested
one for the S-wave remainder, P-wave plus S-wave duration is exactly the
requested duration, and the deactivation timer is pending at exactly the
requested duration. -/
theorem c2_bank_two_phase_split (rand : ℚ) (s : AppState) (duration power : ℚ)
    (hr0 : 0 ≤ rand) (hr1 : rand < 1) (hp : (7/5 : ℚ) ≤ power) :
    (handleEarthquake .bank rand s duration power).pWaveTimeout =
      some (duration * (3/10 + rand * (1/10)), power) ∧
    (handleEarthquake .bank rand s duration power).quakePower = 1/2 ∧
    (handleEarthquake .bank rand s duration power).timeout = some duration ∧
    (handleEarthquake .bank rand s duration power).isQuaking = true ∧
    firePWaveTimeout (handleEarthquake .bank rand s duration power) =
      { handleEarthquake .bank rand s duration power with
          quakePower := power, pWaveTimeout := none } ∧
    duration * (3/10 + rand * (1/10)) +
        (duration - duration * (3/10 + rand * (1/10))) = duration ∧
    (3/10 : ℚ) ≤ 3/10 + rand * (1/10) ∧ (3/10 : ℚ) + rand * (1/10) < 4/10 := by
  have hcond : (BuildingType.bank = BuildingType.bank ∧ (7/5 : ℚ) ≤ power) := ⟨rfl, hp⟩
  unfold handleEarthquake firePWaveTimeout
  rw [if_pos hcond]
  refine ⟨rfl, rfl, rfl, rfl, rfl, by ring, by linarith, by linarith⟩

/-- Witness for c2_bank_two_phase_split at rand 1/2, duration 30000 and
power 1.4: the P-wave timer is pending at 10500 ms with S-wave power 1.4. -/
theorem c2_bank_two_phase_split_witness :
    (0 : ℚ) ≤ 1/2 ∧ ((1 : ℚ)/2 < 1) ∧ ((7 : ℚ)/5 ≤ 7/5) ∧
    (handleEarthquake .bank (1/2) ⟨false, 1, false, 0, none, none⟩ 30000 (7/5)).pWaveTimeout =
      some (10500, 7/5) := by
  refine ⟨by norm_num, by norm_num, le_refl _, ?_⟩
  have h := (c2_bank_two_phase_split (1/2) ⟨false, 1, false, 0, none, none⟩ 30000 (7/5)
    (by norm_num) (by norm_num) (le_refl _)).1
  rw [h]
  norm_num

/-- Claim C3: generate simple with 4 stories yields exactly 20 bodies (4
stories of 4 pillars and 1 slab) over exactly 4 levels with no basement
material anywhere, and every apartment story yields exactly
(roomsX+1)*(roomsZ+1) pillars, hence 16 for the fixed 3 x 3 grid. -/
theorem c3_generate_body_counts :
    (building .simple 4).length = 20 ∧
    totalLevels .simple 4 = 4 ∧
    ((building .simple 4).all fun b => decide (b.material ≠ Material.basementMat)) = true ∧
    ∀ (level : ℕ) (yPos : ℚ) (roomsX roomsZ : ℕ),
      kindCount (storyApartment level yPos roomsX roomsZ) BodyKind.pillar =
        (roomsX + 1) * (roomsZ + 1) ∧
      kindCount (storyApartment level yPos 3 3) BodyKind.pillar = 16 := by
  refine ⟨by decide, by decide, by decide, ?_⟩
  intro level yPos roomsX roomsZ
  exact ⟨(storyApartment_kindCounts ..).1,
    by rw [(storyApartment_kindCounts ..).1]⟩

/-- Claim C4, counterexample: not every rigid body of the bank basement
story gets the heavy mass and the basement material: the exterior window
bodies keep mass 5 with the glass material and the interior wall bodies
keep mass 20 with the wall material. -/
theorem c4_bank_basement_not_all_heavy :
    ¬ ∀ b ∈ storyBank 0 0, b.mass = 50 ∧ b.material = Material.basementMat := by
  decide

/-- Claim C4 (amended): in the apartment basement story every body has
mass 50 and the basement material and no debris is emitted; in the bank
basement story only the pillar and slab bodies get mass 50 and the
basement material, while wall bodies keep mass 20 with the wall material
and window bodies mass 5 with the glass material at every level, and the
bank story emits no debris at any level. -/
theorem c4_basement_heavy_amended (y : ℚ) (rx rz l : ℕ) :
    (∀ b ∈ storyApartment 0 y rx rz,
        b.mass = 50 ∧ b.material = Material.basementMat) ∧
    kindCount (storyApartment 0 y rx rz) BodyKind.debris = 0 ∧
    (∀ b ∈ storyBank 0 y, b.kind = BodyKind.pillar ∨ b.kind = BodyKind.slab →
        b.mass = 50 ∧ b.material = Material.basementMat) ∧
    (∀ b ∈ storyBank l y, b.kind = BodyKind.wall →
        b.mass = 20 ∧ b.material = Material.bankWallMat) ∧
    (∀ b ∈ storyBank l y, b.kind = BodyKind.window →
        b.mass = 5 ∧ b.material = Material.glassMat) ∧
    kindCount (storyBank l y) BodyKind.debris = 0 := by
  refine ⟨storyApartment_basement_heavy y rx rz, ?_,
    storyBank_basement_pillar_slab_heavy y, storyBank_wall_props l y,
    storyBank_window_props l y, (storyBank_kindCounts l y).2.2.2.2.1⟩
  rw [(storyApartment_kindCounts 0 y rx rz).2.2.2]
  simp

/-- Claim C5: rebuild cancels both the pending phase-transition timer and
the end-of-quake timer, leaves the quake state inactive, and a floor frame
rendered with the quake inactive puts the floor body at its rest pose
(0, -1.1, 0), regardless of the prior phase. -/
theorem c5_rebuild_cancels_and_rests (s : AppState) (sin cos : ℚ → ℚ)
    (power t delta rx rz ry : ℚ) :
    (handleRebuild s).isQuaking = false ∧
    (handleRebuild s).timeout = none ∧
    (handleRebuild s).pWaveTimeout = none ∧
    (handleRebuild s).isPaused = false ∧
    floorFrame sin cos (handleRebuild s).isQuaking power t delta rx rz ry =
      (t, ⟨0, -(11/10), 0⟩) := by
  exact ⟨rfl, rfl, rfl, rfl, rfl⟩

/-- Claim C6, counterexample: with storyCount 0 the apartment and bank
builders do not produce an empty result: the extra basement level is still
rendered, 49 bodies for the apartment and 81 for the bank. -/
theorem c6_storyCount_zero_not_empty :
    (building .apartment 0).length = 49 ∧ (building .apartment 0).length ≠ 0 ∧
    (building .bank 0).length = 81 := by
  refine ⟨?_, ?_, ?_⟩
  · rw [building_apartment_length]
  · rw [building_apartment_length]
    norm_num
  · rw [building_bank_length]

/-- Claim C6 (amended): storyCount 0 yields an empty result only for the
simple type; for apartment and bank the builder still renders the
basement level, one full basement story of bodies. -/
theorem c6_storyCount_zero_amended :
    building .simple 0 = [] ∧
    building .apartment 0 = storyApartment 0 0 3 3 ∧
    building .bank 0 = storyBank 0 0 := by
  refine ⟨rfl, ?_, ?_⟩ <;>
    simp [building, totalLevels, getFloorY, getGridDimensions,
          show List.range 1 = [0] from rfl]

/-- Claim C7, counterexample: the vertical noise magnitude does not scale
quadratically with the power scalar: doubling the power from 1 to 2 only
doubles the vertical noise span (0.3 to 0.6), while quadratic scaling
would quadruple it. -/
theorem c7_vertical_noise_not_quadratic :
    ((floorFrame (fun _ => 0) (fun _ => 0) true 2 0 0 0 0 1).2.y -
      (floorFrame (fun _ => 0) (fun _ => 0) true 2 0 0 0 0 0).2.y) ≠
    4 * ((floorFrame (fun _ => 0) (fun _ => 0) true 1 0 0 0 0 1).2.y -
      (floorFrame (fun _ => 0) (fun _ => 0) true 1 0 0 0 0 0).2.y) := by
  norm_num [floorFrame]

/-- Claim C7 (amended): while a quake is active each frame advances t by
delta times 25 and sets x = sin(t)*A + noise, z = cos(0.9 t)*A + noise,
y = -1.1 + sin(1.5 t)*Av + noiseV with A = 1*power, Av = 0.4*power,
horizontal noise magnitude 0.6*power and vertical noise magnitude
0.3*power; every amplitude and noise magnitude, the vertical noise
included, scales linearly (not quadratically) in the power scalar. -/
theorem c7_floor_motion_law (sin cos : ℚ → ℚ) (power t delta rx rz ry c : ℚ) :
    floorFrame sin cos true power t delta rx rz ry =
      (t + delta * 25,
       ⟨sin (t + delta * 25) * (1 * power) + (rx - 1/2) * ((3/5) * power),
        -(11/10) + sin ((t + delta * 25) * (3/2)) * ((2/5) * power) +
          (ry - 1/2) * ((3/10) * power),
        cos ((t + delta * 25) * (9/10)) * (1 * power) + (rz - 1/2) * ((3/5) * power)⟩) ∧
    (floorFrame sin cos true (c * power) t delta rx rz ry).2.y -
        (floorFrame sin cos true (c * power) t delta rx rz 0).2.y =
      c * ((floorFrame sin cos true power t delta rx rz ry).2.y -
        (floorFrame sin cos true power t delta rx rz 0).2.y) ∧
    (floorFrame sin cos true (c * power) t delta rx rz ry).2.x -
        (floorFrame sin cos true (c * power) t delta 0 rz ry).2.x =
      c * ((floorFrame sin cos true power t delta rx rz ry).2.x -
        (floorFrame sin cos true power t delta 0 rz ry).2.x) := by
  refine ⟨rfl, ?_, ?_⟩ <;> simp [floorFrame] <;> ring

/-- Claim C8: the local pivot computed at grab time (the world hit point
transformed into the grabbed body's local frame) is never modified during
the session: after any sequence of frames the session pivot and the
constraint pivotB still equal the grab-time value, and the feedback line
endpoint is that same pivot taken through the body's current pose. -/
theorem c8_drag_pivot_invariant (bodyPose : Pose) (hitPoint : Vec3)
    (frames : List FrameInput) :
    (dragFrames (startDrag bodyPose hitPoint) frames).pivot =
      worldToLocal bodyPose hitPoint ∧
    (dragFrames (startDrag bodyPose hitPoint) frames).pivotB =
      worldToLocal bodyPose hitPoint ∧
    dragLineEndpoint (dragFrames (startDrag bodyPose hitPoint) frames) =
      localPivotToWorld
        (dragFrames (startDrag bodyPose hitPoint) frames).bodyPose
        (worldToLocal bodyPose hitPoint) := by
  have hp : ∀ (fs : List FrameInput) (s : DragSession),
      (dragFrames s fs).pivot = s.pivot ∧ (dragFrames s fs).pivotB = s.pivotB := by
    intro fs
    induction fs with
    | nil => intro s; exact ⟨rfl, rfl⟩
    | cons f fs ih =>
      intro s
      exact ⟨(ih (dragFrame s f)).1.trans rfl, (ih (dragFrame s f)).2.trans rfl⟩
  obtain ⟨h1, h2⟩ := hp frames (startDrag bodyPose hitPoint)
  have hpv : (dragFrames (startDrag bodyPose hitPoint) frames).pivot =
      worldToLocal bodyPose hitPoint := h1.trans rfl
  have hpb : (dragFrames (startDrag bodyPose hitPoint) frames).pivotB =
      worldToLocal bodyPose hitPoint := h2.trans rfl
  refine ⟨hpv, hpb, ?_⟩
  unfold dragLineEndpoint
  rw [hpv]

/-- Claim C9, counterexample: not every non-basement story includes
perimeter walls and debris cubes: a simple story (the simple type has no
basement) contains pillars and a slab but zero wall bodies and zero
debris bodies, and a non-basement bank story contains zero debris. -/
theorem c9_simple_story_lacks_walls_and_debris :
    kindCount (storySimple 0 0) BodyKind.wall = 0 ∧
    kindCount (storySimple 0 0) BodyKind.debris = 0 ∧
    storySimple 0 0 ≠ [] ∧
    kindCount (storyBank 1 0) BodyKind.debris = 0 ∧
    storyBank 1 0 ≠ [] := by
  decide

/-- Claim C9 (amended): per-story composition by type: a simple story has
4 pillars and 1 slab and nothing else; an apartment story has 16 pillars,
24 walls, 9 slabs and 9 debris cubes when it is not the basement (0 debris
at the basement); a bank story has 25 pillars, 24 walls, 16 windows and 16
slabs and never any debris. -/
theorem c9_story_composition_amended (l : ℕ) (y : ℚ) :
    (kindCount (storySimple l y) BodyKind.pillar = 4 ∧
     kindCount (storySimple l y) BodyKind.slab = 1 ∧
     kindCount (storySimple l y) BodyKind.wall = 0 ∧
     kindCount (storySimple l y) BodyKind.debris = 0) ∧
    (kindCount (storyApartment l y 3 3) BodyKind.pillar = 16 ∧
     kindCount (storyApartment l y 3 3) BodyKind.wall = 24 ∧
     kindCount (storyApartment l y 3 3) BodyKind.slab = 9 ∧
     kindCount (storyApartment l y 3 3) BodyKind.debris =
       if l = 0 then 0 else 9) ∧
    (kindCount (storyBank l y) BodyKind.pillar = 25 ∧
     kindCount (storyBank l y) BodyKind.wall = 24 ∧
     kindCount (storyBank l y) BodyKind.window = 16 ∧
     kindCount (storyBank l y) BodyKind.slab = 16 ∧
     kindCount (storyBank l y) BodyKind.debris = 0) := by
  have ha := storyApartment_kindCounts l y 3 3
  have hs := storySimple_kindCounts l y
  have hb := storyBank_kindCounts l y
  refine ⟨⟨hs.1, hs.2.1, hs.2.2.1, hs.2.2.2.1⟩, ⟨?_, ?_, ?_, ?_⟩,
    ⟨hb.1, hb.2.1, hb.2.2.1, hb.2.2.2.1, hb.2.2.2.2.1⟩⟩
  · rw [ha.1]
  · rw [ha.2.1]
  · rw [ha.2.2.1]
  · rw [ha.2.2.2]

/-- Claim C10, counterexample: the apartment body count is not proportional
to storyCount + 1: with 1 story it is 107 and with 3 stories 223, but
proportionality would require 223 * 2 = 107 * 4. -/
theorem c10_apartment_count_not_proportional :
    (building .apartment 1).length = 107 ∧
    (building .apartment 3).length = 223 ∧
    (building .apartment 3).length * 2 ≠ (building .apartment 1).length * 4 := by
  have h1 := building_apartment_length 1
  have h3 := building_apartment_length 3
  norm_num at h1 h3
  exact ⟨h1, h3, by rw [h1, h3]; norm_num⟩

/-- Claim C10 (amended): the builder renders storyCount + 1 levels for
apartment and bank (an extra basement at index 0) and exactly storyCount
levels for simple; the body count is exactly 81 * (storyCount + 1) for
bank and 5 * storyCount for simple, and 58 * storyCount + 49 for the
apartment, which is linear in but not proportional to storyCount + 1
because the basement emits no debris. -/
theorem c10_levels_and_counts (n : ℕ) :
    totalLevels .apartment n = n + 1 ∧
    totalLevels .bank n = n + 1 ∧
    totalLevels .simple n = n ∧
    (building .bank n).length = 81 * (n + 1) ∧
    (building .simple n).length = 5 * n ∧
    (building .apartment n).length = 58 * n + 49 :=
  ⟨by simp [totalLevels], by simp [totalLevels], by simp [totalLevels],
   building_bank_length n, building_simple_length n, building_apartment_length n⟩

end PhysicsBuilder
